import Mathlib

/-!
Verification development for the WaveDromTikZ waveform compiler
(`wavedromtikz.py`).  The Python module turns a per-signal wave string into
an ordered list of TikZ drawing-primitive invocations.  We embed the core
shallowly: each emitted macro invocation becomes a constructor of `Prim`
carrying the same arguments, the `WaveSection` namedtuple becomes a
structure, and the functions `get_brick`, `get_transition_brick` and
`render_waveform` are translated line by line.  Python floats only ever
carry the exact values 0, 0.5 and 1 here, so they are modelled as `ℚ`.
-/

namespace WavedromTikz

/-- One drawing-primitive call appended to the output list by
`render_waveform`.  Each constructor mirrors one TikZ macro (or
`\coordinate` bookkeeping line) of the Python source together with the
arguments the source passes to it.  Style tokens stay `Option String`
(`None` in the namedtuple becomes `none`); level offsets stay `Option ℚ`. -/
inductive Prim where
  | coordAtLastWaveform : Prim
  | advancebrick : ℚ → Prim
  | truncatewaveform : ℚ → ℚ → Nat → Prim
  | coordLastTransition : Prim
  | coordBus : Nat → Prim
  | coordBusStart : Prim
  | coordNode : Char → Prim
  | brickspaceroverly : ℚ → Prim
  | busdata : Nat → String → Prim
  | brickbus : ℚ → Option String → Prim
  | brickbit : ℚ → Option String → Option ℚ → Option ℚ → Bool → Prim
  | bricksharpbittobit : ℚ → Option String → Option ℚ → Option ℚ → Bool → Prim
  | brickbitglitch : ℚ → Option String → Option ℚ → Prim
  | bricksmoothbittobit : ℚ → Option String → Option String → Option ℚ → Option ℚ → Prim
  | brickcurvedbittobit : ℚ → Option String → Option String → Option ℚ → Option ℚ → Prim
  | bricksmoothbittobus : ℚ → Option String → Option String → Option ℚ → Prim
  | brickbustobus : ℚ → Option String → Option String → Prim
  | bricksharpbustobit : ℚ → Option String → Option ℚ → Bool → Prim
  | bricksmoothbustobit : ℚ → Option String → Option String → Option ℚ → Prim
  | brickcurvedbustobit : ℚ → Option String → Option String → Option ℚ → Prim
deriving DecidableEq

/-- Mirror of the `WaveSection` namedtuple of the source: the semantic
descriptor attached to one wave symbol. -/
structure WaveSection where
  wave_type : String
  glitch : Bool
  bus_style : Option String
  bit_style : Option String
  bit_start_position : Option ℚ
  bit_end_position : Option ℚ
  bit_transition : String
deriving DecidableEq

/-- `WAVES["z"]`: high impedance.  The source's level `0.5` is the
rational one half, written `mkRat 1 2`. -/
def WAVES_z : WaveSection :=
  ⟨"bit", false, none, some "", some (mkRat 1 2), some (mkRat 1 2), "curved"⟩

/-- `WAVES["logic"][level]` for `level` in `{0, 1}`. -/
def WAVES_logic (level : ℚ) : WaveSection :=
  ⟨"bit", true, none, some "", some level, some level, "smooth"⟩

/-- `WAVES["pulled"][level]` for `level` in `{0, 1}`. -/
def WAVES_pulled (level : ℚ) : WaveSection :=
  ⟨"bit", true, none, some "wave pulled", some level, some level, "curved"⟩

/-- `WAVES["clk"][edge][has_arrow]` with the edge's `(first, second)`
level pair taken from the source's table. -/
def WAVES_clk (first second : ℚ) (has_arrow : Bool) : WaveSection :=
  ⟨"bit", true, none, some "", some first, some second,
    if has_arrow then "sharparrow" else "sharp"⟩

/-- `WAVES["bus"][name]` with the style and glitch flag from the source's
table. -/
def WAVES_bus (style : String) (glitch : Bool) : WaveSection :=
  ⟨"bus", glitch, some style, none, none, none, "smooth"⟩

/-- Mirror of the `WAVEDROM_NAMES` dictionary: the symbol table from
one-character WaveDrom codes to descriptors; `none` models a `KeyError`
for an unknown character. -/
def WAVEDROM_NAMES : Char → Option WaveSection
  | 'z' => some WAVES_z
  | '0' => some (WAVES_logic 0)
  | '1' => some (WAVES_logic 1)
  | 'd' => some (WAVES_pulled 0)
  | 'u' => some (WAVES_pulled 1)
  | 'x' => some (WAVES_bus "wave x" false)
  | '2' => some (WAVES_bus "wave bus" true)
  | '=' => some (WAVES_bus "wave bus" true)
  | '3' => some (WAVES_bus "wave busyellow" true)
  | '4' => some (WAVES_bus "wave busorange" true)
  | '5' => some (WAVES_bus "wave busblue" true)
  | 'p' => some (WAVES_clk 1 0 false)
  | 'P' => some (WAVES_clk 1 0 true)
  | 'n' => some (WAVES_clk 0 1 false)
  | 'N' => some (WAVES_clk 0 1 true)
  | 'l' => some (WAVES_clk 0 0 false)
  | 'L' => some (WAVES_clk 0 0 true)
  | 'h' => some (WAVES_clk 1 1 false)
  | 'H' => some (WAVES_clk 1 1 true)
  | _ => none

/-- Mirror of `get_brick(wave, odd_brick, brick_width)`: the plain brick for
one half-timeslot.  On a `"bus"` descriptor it emits `\brickbus`; on a
`"bit"` descriptor it emits `\brickbit` with the start and end positions
swapped on odd bricks, and the arrow flag computed exactly as in the
source; any other `wave_type` falls off the end of the Python function
(an implicit `None`), modelled as `none`. -/
def get_brick (wave : WaveSection) (odd_brick : Bool) (brick_width : ℚ) : Option Prim :=
  if wave.wave_type = "bus" then
    some (.brickbus brick_width wave.bus_style)
  else if wave.wave_type = "bit" then
    some (.brickbit brick_width wave.bit_style
      (if odd_brick then wave.bit_end_position else wave.bit_start_position)
      (if odd_brick then wave.bit_start_position else wave.bit_end_position)
      (decide (wave.bit_start_position ≠ wave.bit_end_position) && !odd_brick &&
        decide (wave.bit_transition = "sharparrow")))
  else
    none

/-- Mirror of `get_transition_brick(last_wave, wave, brick_width)`: the
transition brick between two consecutive timeslots.  The nested
conditionals follow the source one for one; the source's
`assert False` branches for an unknown `bit_transition` or an unknown
`wave_type` pairing are modelled as `none`. -/
def get_transition_brick (last_wave wave : WaveSection) (brick_width : ℚ) : Option Prim :=
  if last_wave.wave_type = "bus" ∧ wave.wave_type = "bus" then
    if last_wave.glitch = true ∨ last_wave.bus_style ≠ wave.bus_style then
      some (.brickbustobus brick_width last_wave.bus_style wave.bus_style)
    else
      get_brick wave false brick_width
  else if last_wave.wave_type = "bit" ∧ wave.wave_type = "bit" then
    if last_wave.glitch = true ∧ last_wave.bit_end_position = wave.bit_start_position then
      if wave.bit_transition = "sharp" ∨ wave.bit_transition = "sharparrow" then
        some (.bricksharpbittobit brick_width wave.bit_style
          last_wave.bit_end_position wave.bit_start_position
          (decide (wave.bit_transition = "sharparrow")))
      else
        some (.brickbitglitch brick_width wave.bit_style wave.bit_start_position)
    else if last_wave.bit_end_position = wave.bit_start_position then
      get_brick wave false brick_width
    else
      if wave.bit_transition = "sharp" ∨ wave.bit_transition = "sharparrow" then
        some (.bricksharpbittobit brick_width wave.bit_style
          last_wave.bit_end_position wave.bit_start_position
          (decide (wave.bit_transition = "sharparrow")))
      else if wave.bit_transition = "smooth" then
        some (.bricksmoothbittobit brick_width last_wave.bit_style wave.bit_style
          last_wave.bit_end_position wave.bit_start_position)
      else if wave.bit_transition = "curved" then
        some (.brickcurvedbittobit brick_width last_wave.bit_style wave.bit_style
          last_wave.bit_end_position wave.bit_start_position)
      else
        none
  else if last_wave.wave_type = "bit" ∧ wave.wave_type = "bus" then
    some (.bricksmoothbittobus brick_width last_wave.bit_style wave.bus_style
      last_wave.bit_end_position)
  else if last_wave.wave_type = "bus" ∧ wave.wave_type = "bit" then
    if wave.bit_transition = "sharp" ∨ wave.bit_transition = "sharparrow" then
      some (.bricksharpbustobit brick_width wave.bit_style wave.bit_start_position
        (decide (wave.bit_transition = "sharparrow")))
    else if wave.bit_transition = "smooth" then
      some (.bricksmoothbustobit brick_width last_wave.bus_style wave.bit_style
        wave.bit_start_position)
    else if wave.bit_transition = "curved" then
      some (.brickcurvedbustobit brick_width last_wave.bus_style wave.bit_style
        wave.bit_start_position)
    else
      none
  else
    none

/-- The ways `render_waveform` can abort.  `invalidPeriod` is the
`assert period >= 0.0` failure (the spec's `InvalidPeriodError`);
`typeError` is the `TypeError` Python raises at line 695, where
`isinstance(data) is str` calls `isinstance` with a single argument;
`keyError` is a failed `WAVEDROM_NAMES[...]` lookup; `internalError`
stands for the source's `assert False` defaults surfacing through an
appended `None` brick. -/
inductive RenderError where
  | invalidPeriod : RenderError
  | typeError : RenderError
  | keyError : Char → RenderError
  | internalError : RenderError
deriving DecidableEq

/-- The `data` field of a signal specification as Python sees it: either a
single string (to be split on spaces) or an already-split list. -/
inductive PyData where
  | str : String → PyData
  | list : List String → PyData

/-- A signal specification after `signal_params.get(...)` defaulting:
`wave` and `node` are character sequences, `phase` and `period` rationals. -/
structure SignalParams where
  wave : List Char
  node : List Char
  data : PyData
  phase : ℚ
  period : ℚ

/-- Mirror of `render_waveform` as the source actually executes.  In order:
the `assert period >= 0.0`; the empty-wave early return; the node-padding
statement (pure, no observable effect); then the data-normalisation line
`if isinstance(data) is str:` — `isinstance` called with one argument —
which raises `TypeError` unconditionally, so for every non-empty wave the
function aborts here and the rest of its body (modelled separately as
`render_body`) is unreachable. -/
def render_waveform (p : SignalParams) : Except RenderError (List Prim) :=
  if p.period < 0 then
    .error .invalidPeriod
  else if p.wave = [] then
    .ok []
  else
    .error .typeError

/-- The data-normalisation the source's comment "Split up data in strings"
intends (`isinstance(data, str)` followed by `data.split(" ")`); the line
as written faults instead, see `render_waveform`.  Only the trailing
`\busdata` labels of `render_body` consume it. -/
def normalize_data : PyData → List String
  | .str s => s.splitOn " "
  | .list l => l

/-- `signal in ".|"`: continuation marker or spacer marker. -/
def isContOrSpacer (c : Char) : Bool :=
  c == '.' || c == '|'

/-- `signal in '=2345'`: the symbols that open a bus-label span. -/
def isBusSym (c : Char) : Bool :=
  c == '=' || c == '2' || c == '3' || c == '4' || c == '5'

/-- The guard `time == 0 or signal in ".|"` of the loop body: when true the
first half of the timeslot is a plain brick, otherwise a transition brick. -/
def plain_brick_slot (t : Nat) (sig : Char) : Bool :=
  t == 0 || isContOrSpacer sig

/-- `uses_transition_at wave t`: the loop's first-half branch at timeslot
`t` selects the Transition Generator (`get_transition_brick`) rather than
the plain Brick Generator. -/
def uses_transition_at (wave : List Char) (t : Nat) : Bool :=
  !plain_brick_slot t (wave.getD t ' ')

/-- `continued_signal = last_signal if signal in ".|" else signal`. -/
def continued_signal (last sig : Char) : Char :=
  if isContOrSpacer sig then last else sig

/-- `last_signal = "x" if wave[0] in ".|" else wave[0]` (line 702). -/
def initial_signal (w0 : Char) : Char :=
  if isContOrSpacer w0 then 'x' else w0

/-- `WAVEDROM_NAMES[c]`, with a missing key raising `KeyError`. -/
def lookupWave (c : Char) : Except RenderError WaveSection :=
  match WAVEDROM_NAMES c with
  | some w => .ok w
  | none => .error (.keyError c)

/-- Appending a brick that a generator failed to produce (the source would
append `None` / hit `assert False`). -/
def liftBrick : Option Prim → Except RenderError Prim
  | some pr => .ok pr
  | none => .error .internalError

/-- The first half of one timeslot (lines 738-745): a plain brick for the
continued symbol when `time == 0 or signal in ".|"`, else the transition
brick from the previous effective symbol to the continued one; lookups
happen in the source's order. -/
def first_half_brick (period : ℚ) (t : Nat) (last sig : Char) :
    Except RenderError Prim :=
  if plain_brick_slot t sig then
    match lookupWave (continued_signal last sig) with
    | .error e => .error e
    | .ok w => liftBrick (get_brick w false period)
  else
    match lookupWave last with
    | .error e => .error e
    | .ok lw =>
      match lookupWave (continued_signal last sig) with
      | .error e => .error e
      | .ok w => liftBrick (get_transition_brick lw w period)

/-- The loop-carried part of the render state: the bus-span flag, the
running bus-label index, and the previous effective symbol. -/
structure LoopFlags where
  bus_started : Bool
  bus_number : Nat
  last_signal : Char
deriving DecidableEq

/-- The primitive calls one loop iteration appends, in the source's order:
the `last transition` coordinate, the pending bus-label anchor, the
`bus start` coordinate, the two half-bricks, the node coordinate, and the
spacer overlay. -/
def step_prims (period : ℚ) (sig nod : Char) (fl : LoopFlags)
    (first second : Prim) : List Prim :=
  [Prim.coordLastTransition]
    ++ (if !isContOrSpacer sig && fl.bus_started then [Prim.coordBus fl.bus_number] else [])
    ++ (if isBusSym sig then [Prim.coordBusStart] else [])
    ++ [first, second]
    ++ (if nod != '.' then [Prim.coordNode nod] else [])
    ++ (if sig == '|' then [Prim.brickspaceroverly period] else [])

/-- How one loop iteration updates the flags: an emitted anchor clears
`bus_started` and bumps `bus_number`; a bus symbol re-opens the span; the
effective symbol is carried forward. -/
def step_flags (sig : Char) (fl : LoopFlags) : LoopFlags :=
  { bus_started :=
      if isBusSym sig then true
      else if !isContOrSpacer sig && fl.bus_started then false
      else fl.bus_started
  , bus_number :=
      if !isContOrSpacer sig && fl.bus_started then fl.bus_number + 1 else fl.bus_number
  , last_signal := continued_signal fl.last_signal sig }

/-- One iteration of the rendering loop (lines 717-758) for timeslot `t`
with wave symbol `sig` and node label `nod`. -/
def step (period : ℚ) (t : Nat) (sig nod : Char) (fl : LoopFlags) :
    Except RenderError (List Prim × LoopFlags) :=
  match first_half_brick period t fl.last_signal sig with
  | .error e => .error e
  | .ok first =>
    match lookupWave (continued_signal fl.last_signal sig) with
    | .error e => .error e
    | .ok w =>
      match liftBrick (get_brick w true period) with
      | .error e => .error e
      | .ok second => .ok (step_prims period sig nod fl first second, step_flags sig fl)

/-- `for time, (signal, node_name) in enumerate(zip(wave, node))`: the loop
driven down both character lists with the running timeslot index. -/
def run_loop (period : ℚ) : Nat → List Char → List Char → LoopFlags →
    Except RenderError (List Prim × LoopFlags)
  | _, [], _, fl => .ok ([], fl)
  | _, _ :: _, [], fl => .ok ([], fl)
  | t, sig :: ws, nod :: ns, fl =>
    match step period t sig nod fl with
    | .error e => .error e
    | .ok (ps, fl2) =>
      match run_loop period (t + 1) ws ns fl2 with
      | .error e => .error e
      | .ok (ps2, fl3) => .ok (ps ++ ps2, fl3)

/-- The body of `render_waveform` from line 698 on — the part after the
faulting data-normalisation line, translated as the source wrote it: the
`last brick` coordinate, the phase prelude, the per-timeslot loop, the
final bus-span flush, and the `\busdata` labels zipped against the data
strings. -/
def render_body (p : SignalParams) : Except RenderError (List Prim) :=
  match p.wave with
  | [] => .ok []
  | w0 :: _ =>
    match run_loop p.period 0 p.wave
        (p.node ++ List.replicate (p.wave.length - p.node.length) '.')
        ⟨false, 0, initial_signal w0⟩ with
    | .error e => .error e
    | .ok (loopPrims, fl) =>
      .ok ([Prim.coordAtLastWaveform]
        ++ (if p.phase < 0 then [Prim.advancebrick (-p.phase * 2)] else [])
        ++ (if 0 < p.phase then
              [Prim.truncatewaveform p.period (p.phase * 2) (p.wave.length * 2)]
            else [])
        ++ loopPrims
        ++ (if fl.bus_started then [Prim.coordBus fl.bus_number] else [])
        ++ ((List.range
              (if fl.bus_started then fl.bus_number + 1 else fl.bus_number)).zip
            (normalize_data p.data)).map fun i => Prim.busdata i.1 i.2)

/-- Which primitives are bus-label anchors (`\coordinate (bus i) ...`). -/
def Prim.isBusAnchor : Prim → Bool
  | .coordBus _ => true
  | _ => false

/-- Which primitives are the phase prelude's cursor-advance call. -/
def Prim.isAdvance : Prim → Bool
  | .advancebrick _ => true
  | _ => false

/-- Which primitives are the phase prelude's clip-region call. -/
def Prim.isTruncate : Prim → Bool
  | .truncatewaveform _ _ _ => true
  | _ => false

/-- Which primitives are bricks produced by the Brick or Transition
Generators (as opposed to coordinates, phase calls, overlays and labels). -/
def Prim.isBrickLike : Prim → Bool
  | .brickbus _ _ => true
  | .brickbit _ _ _ _ _ => true
  | .bricksharpbittobit _ _ _ _ _ => true
  | .brickbitglitch _ _ _ => true
  | .bricksmoothbittobit _ _ _ _ _ => true
  | .brickcurvedbittobit _ _ _ _ _ => true
  | .bricksmoothbittobus _ _ _ _ => true
  | .brickbustobus _ _ _ => true
  | .bricksharpbustobit _ _ _ _ => true
  | .bricksmoothbustobit _ _ _ _ => true
  | .brickcurvedbustobit _ _ _ _ => true
  | _ => false

/-- Number of bus-label anchors in an output list. -/
def countBusAnchor (l : List Prim) : Nat :=
  l.countP fun pr => pr.isBusAnchor

/-- `Except.isOk` specialised to the compiler's result type. -/
def isOkB : Except RenderError (List Prim) → Bool
  | .ok _ => true
  | .error _ => false

/-- Arrow flag of an emitted `\brickbit`; `false` on every other primitive. -/
def Prim.brickbitArrow : Prim → Bool
  | .brickbit _ _ _ _ a => a
  | _ => false

/-- The fixed symbol set of the `WAVEDROM_NAMES` table. -/
def wavedromChars : List Char :=
  ['0', '1', 'x', 'z', 'u', 'd', '=', '2', '3', '4', '5',
   'p', 'P', 'n', 'N', 'l', 'L', 'h', 'H']

/-- C1: for every signal specification whose wave string is non-empty and
whose period is at least 0 (so the period assertion passes),
`render_waveform` aborts with the `TypeError` of the data-normalisation
line `isinstance(data) is str` before returning any primitive-call
sequence; no non-empty wave can be compiled to output. -/
theorem C1_nonempty_wave_typeerror (p : SignalParams) (hw : p.wave ≠ [])
    (hp : 0 ≤ p.period) : render_waveform p = .error .typeError := by
  unfold render_waveform
  rw [if_neg (not_lt.mpr hp), if_neg hw]

/-- Witness for C1 at the one-slot wave `"0"` with period 1 and phase 0. -/
theorem C1_nonempty_wave_typeerror_witness :
    (['0'] : List Char) ≠ [] ∧ (0 : ℚ) ≤ 1 ∧
    render_waveform ⟨['0'], [], .list [], 0, 1⟩ = .error .typeError :=
  ⟨by decide, by norm_num,
    C1_nonempty_wave_typeerror ⟨['0'], [], .list [], 0, 1⟩ (by decide) (by norm_num)⟩

/-- C2: for BIT-kind descriptors whose previous end level equals the next
start level, a glitching previous descriptor yields a sharp notch (arrow
flag exactly on a sharparrow transition kind) for sharp or sharparrow
kinds and the generic glitch mark for every other kind, while a
non-glitching previous descriptor yields exactly the plain parity-0
continuation brick of `get_brick`. -/
theorem C2_bit_glitch_and_continuation (prev next : WaveSection) (bw : ℚ)
    (hp : prev.wave_type = "bit") (hn : next.wave_type = "bit")
    (heq : prev.bit_end_position = next.bit_start_position) :
    (prev.glitch = true →
      ((next.bit_transition = "sharp" ∨ next.bit_transition = "sharparrow") →
        get_transition_brick prev next bw =
          some (.bricksharpbittobit bw next.bit_style prev.bit_end_position
            next.bit_start_position (decide (next.bit_transition = "sharparrow")))) ∧
      (next.bit_transition ≠ "sharp" → next.bit_transition ≠ "sharparrow" →
        get_transition_brick prev next bw =
          some (.brickbitglitch bw next.bit_style next.bit_start_position))) ∧
    (prev.glitch = false →
      get_transition_brick prev next bw = get_brick next false bw) := by
  have hbb : ¬ (prev.wave_type = "bus" ∧ next.wave_type = "bus") := by
    rw [hp]; simp
  refine ⟨fun hg => ⟨fun hsh => ?_, fun h1 h2 => ?_⟩, fun hg => ?_⟩
  · unfold get_transition_brick
    rw [if_neg hbb, if_pos ⟨hp, hn⟩, if_pos ⟨hg, heq⟩, if_pos hsh]
  · unfold get_transition_brick
    rw [if_neg hbb, if_pos ⟨hp, hn⟩, if_pos ⟨hg, heq⟩, if_neg (not_or.mpr ⟨h1, h2⟩)]
  · have hng : ¬ (prev.glitch = true ∧
        prev.bit_end_position = next.bit_start_position) := by
      rw [hg]; simp
    unfold get_transition_brick
    rw [if_neg hbb, if_pos ⟨hp, hn⟩, if_neg hng, if_pos heq]

/-- Witness for C2 at the logic-0 descriptor continuing itself: a
glitching smooth descriptor, so the generic glitch mark is emitted. -/
theorem C2_bit_glitch_and_continuation_witness :
    (WAVES_logic 0).wave_type = "bit" ∧
    (WAVES_logic 0).bit_end_position = (WAVES_logic 0).bit_start_position ∧
    (WAVES_logic 0).glitch = true ∧
    get_transition_brick (WAVES_logic 0) (WAVES_logic 0) 1 =
      some (.brickbitglitch 1 (some "") (some 0)) :=
  ⟨rfl, rfl, rfl,
    ((C2_bit_glitch_and_continuation (WAVES_logic 0) (WAVES_logic 0) 1
      rfl rfl rfl).1 rfl).2 (by decide) (by decide)⟩

/-- C3: for BUS-kind descriptors, the transition is the bus-to-bus
primitive exactly when the previous descriptor glitches or the fill
styles differ; otherwise the output is exactly the plain parity-0
continuation brick of `get_brick` (a `\brickbus`, not a transition). -/
theorem C3_bus_to_bus (prev next : WaveSection) (bw : ℚ)
    (hp : prev.wave_type = "bus") (hn : next.wave_type = "bus") :
    ((prev.glitch = true ∨ prev.bus_style ≠ next.bus_style) →
      get_transition_brick prev next bw =
        some (.brickbustobus bw prev.bus_style next.bus_style)) ∧
    (prev.glitch = false → prev.bus_style = next.bus_style →
      get_transition_brick prev next bw = get_brick next false bw ∧
      get_brick next false bw = some (.brickbus bw next.bus_style)) := by
  constructor
  · intro hc
    unfold get_transition_brick
    rw [if_pos ⟨hp, hn⟩, if_pos hc]
  · intro hg hs
    have hng : ¬ (prev.glitch = true ∨ prev.bus_style ≠ next.bus_style) := by
      rw [hg, hs]; simp
    constructor
    · unfold get_transition_brick
      rw [if_pos ⟨hp, hn⟩, if_neg hng]
    · unfold get_brick
      rw [if_pos hn]

/-- Witness for C3 at the non-glitching `x` bus continuing itself: the
plain `\brickbus` is emitted, and at the glitching generic bus, the
bus-to-bus transition. -/
theorem C3_bus_to_bus_witness :
    (WAVES_bus "wave x" false).glitch = false ∧
    get_transition_brick (WAVES_bus "wave x" false) (WAVES_bus "wave x" false) 1 =
      some (.brickbus 1 (some "wave x")) ∧
    get_transition_brick (WAVES_bus "wave bus" true) (WAVES_bus "wave bus" true) 1 =
      some (.brickbustobus 1 (some "wave bus") (some "wave bus")) :=
  ⟨rfl,
    (((C3_bus_to_bus (WAVES_bus "wave x" false) (WAVES_bus "wave x" false) 1
      rfl rfl).2 rfl rfl).1).trans
      (((C3_bus_to_bus (WAVES_bus "wave x" false) (WAVES_bus "wave x" false) 1
        rfl rfl).2 rfl rfl).2),
    (C3_bus_to_bus (WAVES_bus "wave bus" true) (WAVES_bus "wave bus" true) 1
      rfl rfl).1 (Or.inl rfl)⟩

/-- C4: on a BIT-kind descriptor, the parity-1 brick carries the start and
end levels of the parity-0 brick swapped and never an arrow, the two
bricks coincide when the levels are equal, and the arrow flag of an
emitted brick is true exactly when the levels differ, the parity is 0 and
the transition kind is sharparrow. -/
theorem C4_parity_swap_and_arrow (w : WaveSection) (bw : ℚ)
    (h : w.wave_type = "bit") :
    (∃ a, get_brick w false bw =
      some (.brickbit bw w.bit_style w.bit_start_position w.bit_end_position a)) ∧
    get_brick w true bw =
      some (.brickbit bw w.bit_style w.bit_end_position w.bit_start_position false) ∧
    (w.bit_start_position = w.bit_end_position →
      get_brick w true bw = get_brick w false bw) ∧
    (∀ par pr, get_brick w par bw = some pr →
      (pr.brickbitArrow = true ↔
        (w.bit_start_position ≠ w.bit_end_position ∧ par = false ∧
          w.bit_transition = "sharparrow"))) := by
  have hb : ¬ w.wave_type = "bus" := by rw [h]; simp
  refine ⟨⟨decide (w.bit_start_position ≠ w.bit_end_position) && !false &&
    decide (w.bit_transition = "sharparrow"), ?_⟩, ?_, fun heq => ?_,
    fun par pr hpr => ?_⟩
  · simp [get_brick, h]
  · simp [get_brick, h]
  · simp [get_brick, h, heq]
  · unfold get_brick at hpr
    rw [if_neg hb, if_pos h] at hpr
    injection hpr with hpr
    subst hpr
    cases par <;> simp [Prim.brickbitArrow]

/-- Witness for C4 at the arrowed posedge clock descriptor (`'P'`): start
level 1, end level 0, sharparrow transition. -/
theorem C4_parity_swap_and_arrow_witness :
    (WAVES_clk 1 0 true).wave_type = "bit" ∧
    get_brick (WAVES_clk 1 0 true) true 1 =
      some (.brickbit 1 (some "") (some 0) (some 1) false) :=
  ⟨rfl, (C4_parity_swap_and_arrow (WAVES_clk 1 0 true) 1 rfl).2.1⟩

/-- C8: a negative period makes `render_waveform` fail with the period
error before emitting any primitive, and a non-negative period never
trips that check. -/
theorem C8_period_check (p : SignalParams) :
    (p.period < 0 → render_waveform p = .error .invalidPeriod) ∧
    (0 ≤ p.period → render_waveform p ≠ .error .invalidPeriod) := by
  constructor
  · intro h
    unfold render_waveform
    rw [if_pos h]
  · intro h
    unfold render_waveform
    rw [if_neg (not_lt.mpr h)]
    split
    · simp
    · simp

/-- Witness for C8 at period -1 (fails) and period 1 (passes). -/
theorem C8_period_check_witness :
    render_waveform ⟨['0'], [], .list [], 0, -1⟩ = .error .invalidPeriod ∧
    render_waveform ⟨['0'], [], .list [], 0, 1⟩ ≠ .error .invalidPeriod :=
  ⟨(C8_period_check ⟨['0'], [], .list [], 0, -1⟩).1 (by norm_num),
    (C8_period_check ⟨['0'], [], .list [], 0, 1⟩).2 (by norm_num)⟩

theorem liftBrick_ok (o : Option Prim) (pr : Prim) (h : liftBrick o = .ok pr) :
    o = some pr := by
  cases o with
  | some q =>
    simp only [liftBrick] at h
    injection h with h
    rw [h]
  | none => simp [liftBrick] at h

theorem get_brick_brickLike (w : WaveSection) (b : Bool) (bw : ℚ) (pr : Prim)
    (h : get_brick w b bw = some pr) : pr.isBrickLike = true := by
  unfold get_brick at h
  split at h
  · injection h with h
    subst h
    rfl
  · split at h
    · injection h with h
      subst h
      rfl
    · exact Option.noConfusion h

theorem get_transition_brickLike (lw w : WaveSection) (bw : ℚ) (pr : Prim)
    (h : get_transition_brick lw w bw = some pr) : pr.isBrickLike = true := by
  unfold get_transition_brick at h
  repeat' split at h
  all_goals
    first
      | (injection h with h; subst h; rfl)
      | exact get_brick_brickLike _ _ _ _ h
      | exact Option.noConfusion h

theorem first_half_brickLike (period : ℚ) (t : Nat) (last sig : Char) (pr : Prim)
    (h : first_half_brick period t last sig = .ok pr) : pr.isBrickLike = true := by
  unfold first_half_brick at h
  split at h
  · split at h
    · exact Except.noConfusion h
    · exact get_brick_brickLike _ _ _ _ (liftBrick_ok _ _ h)
  · split at h
    · exact Except.noConfusion h
    · split at h
      · exact Except.noConfusion h
      · exact get_transition_brickLike _ _ _ _ (liftBrick_ok _ _ h)

theorem brickLike_not_anchor (pr : Prim) (h : pr.isBrickLike = true) :
    pr.isBusAnchor = false := by
  cases pr <;> simp_all [Prim.isBrickLike, Prim.isBusAnchor]

theorem busSym_not_cont (sig : Char) (h : isBusSym sig = true) :
    isContOrSpacer sig = false := by
  by_contra hc
  have hc2 : isContOrSpacer sig = true := by
    revert hc; cases isContOrSpacer sig <;> simp
  simp only [isContOrSpacer, Bool.or_eq_true, beq_iff_eq] at hc2
  rcases hc2 with h2 | h2 <;> subst h2 <;> exact absurd h (by decide)

theorem step_ok_shape (period : ℚ) (t : Nat) (sig nod : Char) (fl : LoopFlags)
    (ps : List Prim) (fl2 : LoopFlags)
    (h : step period t sig nod fl = .ok (ps, fl2)) :
    fl2 = step_flags sig fl ∧
    ∃ first second, first.isBrickLike = true ∧ second.isBrickLike = true ∧
      ps = step_prims period sig nod fl first second := by
  unfold step at h
  cases hfb : first_half_brick period t fl.last_signal sig with
  | error e => simp only [hfb] at h; exact Except.noConfusion h
  | ok first =>
    simp only [hfb] at h
    cases hlw : lookupWave (continued_signal fl.last_signal sig) with
    | error e => simp only [hlw] at h; exact Except.noConfusion h
    | ok w =>
      simp only [hlw] at h
      cases hsb : liftBrick (get_brick w true period) with
      | error e => simp only [hsb] at h; exact Except.noConfusion h
      | ok second =>
        simp only [hsb] at h
        injection h with h
        injection h with hps hfl
        exact ⟨hfl.symm, first, second,
          first_half_brickLike _ _ _ _ _ hfb,
          get_brick_brickLike _ _ _ _ (liftBrick_ok _ _ hsb), hps.symm⟩

theorem step_prims_anchor_count (period : ℚ) (sig nod : Char) (fl : LoopFlags)
    (first second : Prim) (h1 : first.isBrickLike = true)
    (h2 : second.isBrickLike = true) :
    countBusAnchor (step_prims period sig nod fl first second) +
      (if (step_flags sig fl).bus_started = true then 1 else 0) =
    (if fl.bus_started = true then 1 else 0) +
      (if isBusSym sig = true then 1 else 0) := by
  have e1 := brickLike_not_anchor first h1
  have e2 := brickLike_not_anchor second h2
  by_cases hb : isBusSym sig = true
  · have hc := busSym_not_cont sig hb
    cases hs : fl.bus_started <;>
      cases hn : nod != '.' <;>
        simp [step_prims, step_flags, countBusAnchor, hb, hc, hs, hn,
          List.countP_append, List.countP_cons, e1, e2, Prim.isBusAnchor] <;>
        exact ⟨e2, e1⟩
  · have hb2 : isBusSym sig = false := by
      revert hb; cases isBusSym sig <;> simp
    cases hc : isContOrSpacer sig <;> cases hs : fl.bus_started <;>
      cases hn : nod != '.' <;>
        simp [step_prims, step_flags, countBusAnchor, hb2, hc, hs, hn,
          List.countP_append, List.countP_cons, e1, e2, Prim.isBusAnchor] <;>
        exact ⟨e2, e1⟩

theorem run_loop_anchor_count (period : ℚ) (ws : List Char) :
    ∀ (ns : List Char) (t : Nat) (fl : LoopFlags) (ps : List Prim)
      (fl2 : LoopFlags),
      run_loop period t ws ns fl = .ok (ps, fl2) →
      ws.length ≤ ns.length →
      countBusAnchor ps + (if fl2.bus_started = true then 1 else 0) =
        (if fl.bus_started = true then 1 else 0) + ws.countP isBusSym := by
  induction ws with
  | nil =>
    intro ns t fl ps fl2 h _
    simp only [run_loop] at h
    injection h with h
    injection h with hps hfl
    subst hps
    subst hfl
    simp [countBusAnchor]
  | cons sig ws ih =>
    intro ns t fl ps fl2 h hlen
    cases ns with
    | nil => simp at hlen
    | cons nod ns =>
      simp only [run_loop] at h
      cases hstep : step period t sig nod fl with
      | error e => simp only [hstep] at h; exact Except.noConfusion h
      | ok r =>
        obtain ⟨ps1, fl1⟩ := r
        simp only [hstep] at h
        cases hrest : run_loop period (t + 1) ws ns fl1 with
        | error e => simp only [hrest] at h; exact Except.noConfusion h
        | ok r2 =>
          obtain ⟨ps2, fl3⟩ := r2
          simp only [hrest] at h
          injection h with h
          injection h with hps hfl
          subst hps
          subst hfl
          obtain ⟨hfl1, first, second, hb1, hb2, hps1⟩ :=
            step_ok_shape period t sig nod fl ps1 fl1 hstep
          have hstepc :=
            step_prims_anchor_count period sig nod fl first second hb1 hb2
          have hlen2 : ws.length ≤ ns.length := by
            simp only [List.length_cons] at hlen
            omega
          have hrec := ih ns (t + 1) fl1 ps2 fl3 hrest hlen2
          rw [hfl1] at hrec
          rw [hps1]
          simp only [countBusAnchor, List.countP_append, List.countP_cons] at *
          omega

/-- C5 counterexample: the claim says compiling the wave `"22"` emits
exactly one bus-label anchor spanning the whole 2-slot run.  It does not:
the faithful `render_waveform` emits nothing (it aborts with the
data-normalisation `TypeError`), and the rendering loop itself (the lines
the claim cites) emits two anchors, one per `'2'`, because a repeated bus
symbol re-opens a new span at line 731's `signal in '=2345'` test. -/
theorem C5_counterexample_two_anchors_for_22 :
    render_waveform ⟨['2', '2'], [], .list [], 0, 1⟩ = .error .typeError ∧
    (render_body ⟨['2', '2'], [], .list [], 0, 1⟩).map countBusAnchor = .ok 2 :=
  ⟨rfl, rfl⟩

/-- C5 (amended): whenever the rendering loop completes, the number of
bus-label anchors emitted equals the number of timeslots whose symbol is
one of `'='`, `'2'`, `'3'`, `'4'`, `'5'` — every non-continuation bus
symbol starts a new labelled span, continuation markers merge into the
current one; in particular `"22"` yields two anchors. -/
theorem C5_anchor_count_per_bus_symbol (p : SignalParams) (l : List Prim)
    (h : render_body p = .ok l) :
    countBusAnchor l = p.wave.countP isBusSym := by
  rcases hw : p.wave with - | ⟨w0, ws⟩
  · unfold render_body at h
    rw [hw] at h
    injection h with h
    subst h
    simp [countBusAnchor]
  · unfold render_body at h
    rw [hw] at h
    cases hrl : run_loop p.period 0 (w0 :: ws)
        (p.node ++ List.replicate ((w0 :: ws).length - p.node.length) '.')
        ⟨false, 0, initial_signal w0⟩ with
    | error e => simp only [hrl] at h; exact Except.noConfusion h
    | ok r =>
      obtain ⟨loopPrims, fl⟩ := r
      simp only [hrl] at h
      injection h with h
      subst h
      have hlen : (w0 :: ws).length ≤
          (p.node ++ List.replicate ((w0 :: ws).length - p.node.length) '.').length := by
        rw [List.length_append, List.length_replicate]
        omega
      have hinv := run_loop_anchor_count p.period (w0 :: ws)
        (p.node ++ List.replicate ((w0 :: ws).length - p.node.length) '.')
        0 ⟨false, 0, initial_signal w0⟩ loopPrims fl hrl hlen
      have h0 : (if (⟨false, 0, initial_signal w0⟩ : LoopFlags).bus_started = true
          then 1 else 0) = 0 := rfl
      have hA : countBusAnchor [Prim.coordAtLastWaveform] = 0 := rfl
      have hph1 : countBusAnchor
          (if p.phase < 0 then [Prim.advancebrick (-p.phase * 2)] else []) = 0 := by
        split <;> rfl
      have hph2 : countBusAnchor
          (if 0 < p.phase then
            [Prim.truncatewaveform p.period (p.phase * 2) ((w0 :: ws).length * 2)]
          else []) = 0 := by
        split <;> rfl
      have hflush : countBusAnchor
          (if fl.bus_started then [Prim.coordBus fl.bus_number] else []) =
          (if fl.bus_started = true then 1 else 0) := by
        cases hbs : fl.bus_started <;>
          simp [hbs, countBusAnchor, List.countP_cons, Prim.isBusAnchor]
      have hlabels : countBusAnchor (((List.range
          (if fl.bus_started then fl.bus_number + 1 else fl.bus_number)).zip
          (normalize_data p.data)).map fun i => Prim.busdata i.1 i.2) = 0 := by
        unfold countBusAnchor
        rw [List.countP_eq_zero]
        intro a ha
        simp only [List.mem_map] at ha
        obtain ⟨b, hb, rfl⟩ := ha
        simp [Prim.isBusAnchor]
      simp only [countBusAnchor, List.countP_append] at hinv h0 hA hph1 hph2 hflush hlabels ⊢
      omega

/-- Witness for C5's amended statement at the wave `"22"`: the body
output is computed explicitly, has two anchors, and `"22"` has two bus
symbols. -/
theorem C5_anchor_count_per_bus_symbol_witness :
    render_body ⟨['2', '2'], [], .list [], 0, 1⟩ =
      .ok [Prim.coordAtLastWaveform, Prim.coordLastTransition,
        Prim.coordBusStart, Prim.brickbus 1 (some "wave bus"),
        Prim.brickbus 1 (some "wave bus"), Prim.coordLastTransition,
        Prim.coordBus 0, Prim.coordBusStart,
        Prim.brickbustobus 1 (some "wave bus") (some "wave bus"),
        Prim.brickbus 1 (some "wave bus"), Prim.coordBus 1] ∧
    countBusAnchor [Prim.coordAtLastWaveform, Prim.coordLastTransition,
        Prim.coordBusStart, Prim.brickbus 1 (some "wave bus"),
        Prim.brickbus 1 (some "wave bus"), Prim.coordLastTransition,
        Prim.coordBus 0, Prim.coordBusStart,
        Prim.brickbustobus 1 (some "wave bus") (some "wave bus"),
        Prim.brickbus 1 (some "wave bus"), Prim.coordBus 1] =
      (['2', '2'] : List Char).countP isBusSym :=
  ⟨rfl, C5_anchor_count_per_bus_symbol ⟨['2', '2'], [], .list [], 0, 1⟩ _ rfl⟩

/-- C6 counterexample: the claim says that compiling `"00.11"` invokes the
Transition Generator only at the boundary between the `'0'` run and the
`'1'` run.  In fact the loop's branch condition selects the Transition
Generator already at timeslot 1 — inside the `'0'` run — where it produces
a glitch brick; and the faithful `render_waveform` aborts with the
data-normalisation `TypeError` before invoking anything at all. -/
theorem C6_counterexample_transition_inside_run :
    uses_transition_at ['0', '0', '.', '1', '1'] 1 = true ∧
    first_half_brick 1 1 '0' '0' = .ok (.brickbitglitch 1 (some "") (some 0)) ∧
    render_waveform ⟨['0', '0', '.', '1', '1'], [], .list [], 0, 1⟩ =
      .error .typeError :=
  ⟨rfl, rfl, rfl⟩

/-- C6 (amended): a timeslot whose symbol is `'.'` (or `'|'`) always takes
the plain-brick branch, never the Transition Generator; on `"00.11"` the
Transition Generator branch is selected exactly at timeslots 1, 3 and 4
(yielding a glitch brick for `'0'`→`'0'`, the smooth 0→1 transition, and a
glitch brick for `'1'`→`'1'`), and timeslot 2 — the `'.'` — yields the
plain continuation brick. -/
theorem C6_transition_slots_00dot11 :
    (∀ t : Nat, plain_brick_slot t '.' = true ∧ plain_brick_slot t '|' = true) ∧
    (uses_transition_at ['0', '0', '.', '1', '1'] 0 = false ∧
      uses_transition_at ['0', '0', '.', '1', '1'] 1 = true ∧
      uses_transition_at ['0', '0', '.', '1', '1'] 2 = false ∧
      uses_transition_at ['0', '0', '.', '1', '1'] 3 = true ∧
      uses_transition_at ['0', '0', '.', '1', '1'] 4 = true) ∧
    first_half_brick 1 1 '0' '0' = .ok (.brickbitglitch 1 (some "") (some 0)) ∧
    first_half_brick 1 2 '0' '.' =
      .ok (.brickbit 1 (some "") (some 0) (some 0) false) ∧
    first_half_brick 1 3 '0' '1' =
      .ok (.bricksmoothbittobit 1 (some "") (some "") (some 0) (some 1)) ∧
    first_half_brick 1 4 '1' '1' = .ok (.brickbitglitch 1 (some "") (some 1)) := by
  refine ⟨fun t => ⟨?_, ?_⟩, ⟨rfl, rfl, rfl, rfl, rfl⟩, rfl, rfl, rfl, rfl⟩
  · unfold plain_brick_slot
    rw [show isContOrSpacer '.' = true from rfl]
    exact Bool.or_true _
  · unfold plain_brick_slot
    rw [show isContOrSpacer '|' = true from rfl]
    exact Bool.or_true _

/-- C7: every character of the fixed symbol set resolves in the symbol
table, yet compiling any doubled symbol raises: `render_waveform` aborts
with the data-normalisation `TypeError` on every non-empty wave (shown
for `"00"`).  The rendering loop itself, were it reached, completes
without error on each of the nineteen doubled symbols. -/
theorem C7_lookup_total_but_compile_raises :
    wavedromChars.all (fun c => (WAVEDROM_NAMES c).isSome) = true ∧
    render_waveform ⟨['0', '0'], [], .list [], 0, 1⟩ = .error .typeError ∧
    wavedromChars.all
      (fun c => isOkB (render_body ⟨[c, c], [], .list [], 0, 1⟩)) = true :=
  ⟨by decide, rfl, by decide⟩

/-- C9: the phase prelude of the loop body (lines 704-710) does emit one
cursor advance of `|phase|*2` for a negative phase, one clip region
`\truncatewaveform{period}{phase*2}{len(wave)*2}` and no advance for a
positive phase, and neither for phase 0 — but the faithful
`render_waveform` aborts with the data-normalisation `TypeError` before
those lines can run. -/
theorem C9_phase_prelude :
    render_waveform ⟨['0'], [], .list [], -1, 1⟩ = .error .typeError ∧
    render_body ⟨['0'], [], .list [], -1, 1⟩ =
      .ok [Prim.coordAtLastWaveform, Prim.advancebrick (-(-1 : ℚ) * 2),
        Prim.coordLastTransition,
        Prim.brickbit 1 (some "") (some 0) (some 0) false,
        Prim.brickbit 1 (some "") (some 0) (some 0) false] ∧
    (-(-1 : ℚ) * 2) = 2 ∧
    render_body ⟨['0'], [], .list [], 1, 1⟩ =
      .ok [Prim.coordAtLastWaveform, Prim.truncatewaveform 1 ((1 : ℚ) * 2) 2,
        Prim.coordLastTransition,
        Prim.brickbit 1 (some "") (some 0) (some 0) false,
        Prim.brickbit 1 (some "") (some 0) (some 0) false] ∧
    ((1 : ℚ) * 2) = 2 ∧
    render_body ⟨['0'], [], .list [], 0, 1⟩ =
      .ok [Prim.coordAtLastWaveform, Prim.coordLastTransition,
        Prim.brickbit 1 (some "") (some 0) (some 0) false,
        Prim.brickbit 1 (some "") (some 0) (some 0) false] :=
  ⟨rfl, rfl, by norm_num, rfl, by norm_num, rfl⟩

/-- C10: line 702 does take `'x'` as the initial previous effective
symbol when the wave starts with `'.'` or `'|'`, and the loop body then
renders the first timeslot with the `'x'` descriptor (`\brickbus` in the
`wave x` style) — but the faithful `render_waveform` aborts with the
data-normalisation `TypeError` before rendering anything (shown for
`".0"`). -/
theorem C10_initial_signal_is_x :
    initial_signal '.' = 'x' ∧ initial_signal '|' = 'x' ∧
    render_waveform ⟨['.', '0'], [], .list [], 0, 1⟩ = .error .typeError ∧
    render_body ⟨['.', '0'], [], .list [], 0, 1⟩ =
      .ok [Prim.coordAtLastWaveform, Prim.coordLastTransition,
        Prim.brickbus 1 (some "wave x"), Prim.brickbus 1 (some "wave x"),
        Prim.coordLastTransition,
        Prim.bricksmoothbustobit 1 (some "wave x") (some "") (some 0),
        Prim.brickbit 1 (some "") (some 0) (some 0) false] :=
  ⟨rfl, rfl, rfl, rfl⟩

end WavedromTikz
